import Mathlib

/-!
Verification of the finance-assistant service layer.

Shallow embedding of `src/services/huggingface_service.py` (rule-based
"lightweight mode": `sentiment_analyzer = None`, so every path is the
deterministic fallback path) and of `src/models/user_profile.py`.

Python strings are modelled as Lean `String`; Python floats as `Rat`
(every constant involved — 0.7, 0.6, 0.8, and the budget figures — is
exactly representable, and `1200.0 / 800.0` is exact in both models);
Python `None`-able fields as `Option`; a raising constructor call as
`Except`.
-/

namespace FinanceAssistant

/-- Model of Python `str.lower()` (per-character lowering; the inputs of
interest are ASCII, where the two agree). -/
def lowerStr (s : String) : String :=
  String.mk (s.toList.map Char.toLower)

/-- Substring test on character lists: does `needle` occur contiguously in
the list? Mirrors Python's `needle in hay` for strings. -/
def containsSub (needle : List Char) : List Char → Bool
  | [] => needle.isEmpty
  | c :: cs => needle.isPrefixOf (c :: cs) || containsSub needle cs

/-- Model of Python `needle in hay` (substring containment). -/
def strContains (hay needle : String) : Bool :=
  containsSub needle.toList hay.toList

/-- Python's default whitespace set for `str.strip()` / `str.split()`. -/
def isPyWS (c : Char) : Bool :=
  c = ' ' || c = '\t' || c = '\n' || c = '\r' || c = '\x0b' || c = '\x0c'

/-- Model of Python `str.strip()`: drop leading and trailing whitespace. -/
def pyStrip (s : String) : String :=
  String.mk ((((s.toList.dropWhile isPyWS).reverse).dropWhile isPyWS).reverse)

/-- Maximal runs of characters satisfying `keep`; the accumulator holds the
current run reversed. -/
def runsAux (keep : Char → Bool) : List Char → List Char → List (List Char)
  | [], acc => if acc.isEmpty then [] else [acc.reverse]
  | c :: cs, acc =>
    if keep c then runsAux keep cs (c :: acc)
    else if acc.isEmpty then runsAux keep cs [] else acc.reverse :: runsAux keep cs []

/-- Maximal runs of characters satisfying `keep`. -/
def runsBy (keep : Char → Bool) (l : List Char) : List (List Char) :=
  runsAux keep l []

/-- A regex `\w` character (`[A-Za-z0-9_]`; ASCII fragment of Python's class). -/
def isWordChar (c : Char) : Bool :=
  c.isAlphanum || c = '_'

/-- Model of `re.findall(r'\b\w+\b', s)`: the maximal runs of word
characters of `s`. -/
def findWords (s : String) : List String :=
  (runsBy isWordChar s.toList).map String.mk

/-- Model of Python `s.split()` (split on whitespace runs, no empties). -/
def pySplitWS (s : String) : List String :=
  (runsBy (fun c => !isPyWS c) s.toList).map String.mk

/-- Model of Python `s.split('_')[0]`: the prefix of `s` up to (excluding)
its first underscore — the whole of `s` when it has none. -/
def splitHeadUnderscore (s : String) : String :=
  String.mk (s.toList.takeWhile (fun c => c ≠ '_'))

/-- One pass of Python `str.replace` on character lists, with explicit fuel
(structural recursion so that concrete instances evaluate): replaces
non-overlapping occurrences of `pat` left to right. -/
def replaceFuel (pat rep : List Char) : Nat → List Char → List Char
  | _, [] => []
  | 0, l => l
  | n + 1, c :: cs =>
    if pat.isPrefixOf (c :: cs) && !pat.isEmpty then
      rep ++ replaceFuel pat rep n ((c :: cs).drop pat.length)
    else
      c :: replaceFuel pat rep n cs

/-- Model of Python `s.replace(pat, rep)` for a non-empty `pat`. -/
def strReplace (pat rep s : String) : String :=
  String.mk (replaceFuel pat.toList rep.toList s.toList.length s.toList)

/-- Apply a list of `(pattern, replacement)` substitutions in order. -/
def applySubs (subs : List (String × String)) (s : String) : String :=
  subs.foldl (fun acc p => strReplace p.1 p.2 acc) s

/-! ### Data model (`src/models/user_profile.py`) -/

/-- `class UserType(Enum)`. -/
inductive UserType where
  | student
  | professional
deriving DecidableEq, Repr

/-- The `.value` of a `UserType` member. -/
def UserType.value : UserType → String
  | .student => "student"
  | .professional => "professional"

/-- `class AgeRange(Enum)`. -/
inductive AgeRange where
  | age_18_25
  | age_26_35
  | age_36_50
  | age_51_above
deriving DecidableEq, Repr

/-- The `.value` of an `AgeRange` member. -/
def AgeRange.value : AgeRange → String
  | .age_18_25 => "18-25"
  | .age_26_35 => "26-35"
  | .age_36_50 => "36-50"
  | .age_51_above => "51+"

/-- `class IncomeLevel(Enum)`. -/
inductive IncomeLevel where
  | level_0_15000
  | level_15001_30000
  | level_30001_60000
  | level_60001_100000
  | level_100k_plus
deriving DecidableEq, Repr

/-- The `.value` of an `IncomeLevel` member. -/
def IncomeLevel.value : IncomeLevel → String
  | .level_0_15000 => "0-15000"
  | .level_15001_30000 => "15001-30000"
  | .level_30001_60000 => "30001-60000"
  | .level_60001_100000 => "60001-100000"
  | .level_100k_plus => "100000+"

/-- `class RiskTolerance(Enum)`. -/
inductive RiskTolerance where
  | conservative
  | moderate
  | aggressive
deriving DecidableEq, Repr

/-- The `.value` of a `RiskTolerance` member. -/
def RiskTolerance.value : RiskTolerance → String
  | .conservative => "conservative"
  | .moderate => "moderate"
  | .aggressive => "aggressive"

/-- `class CommunicationStyle(Enum)`. -/
inductive CommunicationStyle where
  | simple
  | detailed
deriving DecidableEq, Repr

/-- The `.value` of a `CommunicationStyle` member. -/
def CommunicationStyle.value : CommunicationStyle → String
  | .simple => "simple"
  | .detailed => "detailed"

/-- `@dataclass FinancialGoal`. -/
structure FinancialGoal where
  goal_type : String
  target_amount : Rat
  timeline : String
  priority : String
deriving DecidableEq, Repr

/-- `class UserProfile`, with the `__init__` defaults (`None` → `none`,
`[]` → `[]`). -/
structure UserProfile where
  user_id : Option String := none
  name : Option String := none
  user_type : Option UserType := none
  age_range : Option AgeRange := none
  income_level : Option IncomeLevel := none
  financial_goals : List FinancialGoal := []
  risk_tolerance : Option RiskTolerance := none
  communication_preference : Option CommunicationStyle := none
  location : Option String := none
  employment_status : Option String := none
  monthly_expenses : Option Rat := none
  current_savings : Option Rat := none
  debt_amount : Option Rat := none
deriving DecidableEq, Repr

/-! #### Setters with safe normalization

Python's `EnumClass(raw)` raises `ValueError` when `raw` is no member's
value; a raising call is modelled as `Except.error`. Each setter
normalizes (lower-case, or `'_' → '-'`) and then looks the value up in
the closed enumeration. -/

/-- `UserProfile.set_user_type` for a raw string: `UserType(value.lower())`. -/
def set_user_type (value : String) : Except String UserType :=
  let n := lowerStr value
  if n = "student" then .ok .student
  else if n = "professional" then .ok .professional
  else .error (n ++ " is not a valid UserType")

/-- `UserProfile.set_age_range` for a raw string:
`AgeRange(value.replace("_", "-"))`. -/
def set_age_range (value : String) : Except String AgeRange :=
  let n := strReplace "_" "-" value
  if n = "18-25" then .ok .age_18_25
  else if n = "26-35" then .ok .age_26_35
  else if n = "36-50" then .ok .age_36_50
  else if n = "51+" then .ok .age_51_above
  else .error (n ++ " is not a valid AgeRange")

/-- `UserProfile.set_income_level` for a raw string:
`IncomeLevel(value.replace("_", "-"))`. -/
def set_income_level (value : String) : Except String IncomeLevel :=
  let n := strReplace "_" "-" value
  if n = "0-15000" then .ok .level_0_15000
  else if n = "15001-30000" then .ok .level_15001_30000
  else if n = "30001-60000" then .ok .level_30001_60000
  else if n = "60001-100000" then .ok .level_60001_100000
  else if n = "100000+" then .ok .level_100k_plus
  else .error (n ++ " is not a valid IncomeLevel")

/-- `UserProfile.set_risk_tolerance` for a raw string:
`RiskTolerance(value.lower())`. -/
def set_risk_tolerance (value : String) : Except String RiskTolerance :=
  let n := lowerStr value
  if n = "conservative" then .ok .conservative
  else if n = "moderate" then .ok .moderate
  else if n = "aggressive" then .ok .aggressive
  else .error (n ++ " is not a valid RiskTolerance")

/-- `UserProfile.set_communication_preference` for a raw string:
`CommunicationStyle(value.lower())`. -/
def set_communication_preference (value : String) : Except String CommunicationStyle :=
  let n := lowerStr value
  if n = "simple" then .ok .simple
  else if n = "detailed" then .ok .detailed
  else .error (n ++ " is not a valid CommunicationStyle")

/-! ### Service layer (`src/services/huggingface_service.py`)

The service runs with `lightweight_mode = True`, so `_initialize_models`
sets every model adapter to `None` and each analysis step takes its
deterministic rule-based branch. -/

/-- An entity record appended by `_extract_entities`
(`{'entity': …, 'value': …, 'confidence': 0.8}`). -/
structure EntityR where
  entity : String
  value : String
  confidence : Rat
deriving DecidableEq, Repr

/-- `@dataclass FinancialQuery`. -/
structure FinancialQuery where
  original_query : String
  intent : String
  entities : List EntityR
  keywords : List String
  sentiment : String
  confidence : Rat
  category : String
deriving DecidableEq, Repr

/-- `@dataclass PersonalizedResponse`. -/
structure PersonalizedResponse where
  content : String
  tone : String
  complexity_level : String
  recommendations : List String
  additional_resources : List String
  follow_up_questions : List String
deriving DecidableEq, Repr

/-- A sentiment result dict `{'label': …, 'score': …}`. -/
structure SentimentR where
  label : String
  score : Rat
deriving DecidableEq, Repr

/-- `self.financial_intents`: the intent lexicon table, in declaration
order. -/
def financial_intents : List (String × List String) :=
  [ ("savings_advice", ["save", "saving", "savings", "emergency fund", "rainy day"]),
    ("investment_advice", ["invest", "investment", "portfolio", "stocks", "bonds", "retirement", "401k"]),
    ("budgeting_help", ["budget", "expense", "spending", "monthly", "track", "money"]),
    ("debt_management", ["debt", "loan", "credit", "pay off", "consolidate", "student loan"]),
    ("tax_planning", ["tax", "deduction", "IRS", "filing", "refund", "tax return"]),
    ("financial_education", ["learn", "explain", "what is", "how does", "understand"]) ]

/-- `positive_words` of `_fallback_sentiment_analysis`. -/
def positive_words : List String :=
  ["good", "great", "excited", "happy", "awesome", "excellent", "love", "like", "want", "help"]

/-- `negative_words` of `_fallback_sentiment_analysis`. -/
def negative_words : List String :=
  ["bad", "terrible", "worried", "concerned", "problem", "debt", "struggling", "confused", "lost"]

/-- `positive_count` of `_fallback_sentiment_analysis`:
`sum(1 for word in positive_words if word in text_lower)`. -/
def positiveCount (text : String) : Nat :=
  positive_words.countP (fun w => strContains (lowerStr text) w)

/-- `negative_count` of `_fallback_sentiment_analysis`. -/
def negativeCount (text : String) : Nat :=
  negative_words.countP (fun w => strContains (lowerStr text) w)

/-- `_fallback_sentiment_analysis`: strictly more positive hits ⇒
`('positive', 0.7)`; strictly more negative ⇒ `('negative', 0.7)`;
equal ⇒ `('neutral', 0.6)`. -/
def fallback_sentiment_analysis (text : String) : SentimentR :=
  let positive_count := positiveCount text
  let negative_count := negativeCount text
  if negative_count < positive_count then ⟨"positive", 7/10⟩
  else if positive_count < negative_count then ⟨"negative", 7/10⟩
  else ⟨"neutral", 3/5⟩

/-- `_analyze_sentiment` in lightweight mode: `sentiment_analyzer` is
`None`, so the fallback runs. -/
def analyze_sentiment (text : String) : SentimentR :=
  fallback_sentiment_analysis text

/-- The score of one intent:
`sum(1 for keyword in keywords if keyword in query_lower)`. -/
def intentScore (query_lower : String) (keywords : List String) : Nat :=
  keywords.countP (fun k => strContains query_lower k)

/-- Model of Python `max(items, key=lambda x: x[1])`: the first element
(in iteration order) whose second component is maximal; `none` on `[]`
(where Python would raise — the caller guards with `if intent_scores:`). -/
def pyMaxBySnd (l : List (String × Nat)) : Option (String × Nat) :=
  l.find? (fun p => l.all (fun q => q.2 ≤ p.2))

/-- Building the returned pair from the winning entry
(`best_intent, best_intent.split('_')[0]`), or the zero-match return
`('general_financial_advice', 'general')`. -/
def pickResult : Option (String × Nat) → String × String
  | some best => (best.1, splitHeadUnderscore best.1)
  | none => ("general_financial_advice", "general")

/-- `_classify_intent`: lower-case the query, score every intent, keep the
positive scores (`if score > 0`), take the Python `max` by score over the
kept entries, else the general fallback. -/
def classify_intent (query : String) : String × String :=
  let query_lower := lowerStr query
  let intent_scores :=
    (financial_intents.map (fun p => (p.1, intentScore query_lower p.2))).filter
      (fun p => 0 < p.2)
  pickResult (pyMaxBySnd intent_scores)

/-- `financial_terms` of `_extract_keywords`. -/
def financial_terms : List String :=
  [ "save", "saving", "savings", "invest", "investment", "budget", "money",
    "debt", "loan", "credit", "tax", "retirement", "emergency", "fund",
    "stock", "bond", "portfolio", "income", "expense", "financial",
    "dollar", "cash", "bank", "account", "401k", "ira" ]

/-- `_extract_keywords`: tokenize `text.lower()` with `\b\w+\b`, keep the
tokens that are financial terms, return the first five. (The
`except`-branch `text.split()[:3]` is unreachable for a pure string
input: no operation of the `try` body raises.) -/
def extract_keywords (text : String) : List String :=
  let words := findWords (lowerStr text)
  (words.filter (fun w => decide (w ∈ financial_terms))).take 5

/-- `entity_patterns` of `_extract_entities`, in declaration order. -/
def entity_patterns : List (String × List String) :=
  [ ("MONEY", ["$", "dollar", "money", "income", "salary"]),
    ("PERCENTAGE", ["%", "percent", "rate"]),
    ("TIME", ["month", "year", "monthly", "annual", "weekly"]),
    ("FINANCIAL_PRODUCT", ["401k", "ira", "savings account", "credit card", "loan"]) ]

/-- `_extract_entities`: for each entity type in order, for each pattern in
order, append a record when the pattern occurs in the lowered text. -/
def extract_entities (text : String) : List EntityR :=
  let text_lower := lowerStr text
  (entity_patterns.map (fun p =>
    (p.2.filter (fun pat => strContains text_lower pat)).map
      (fun pat => EntityR.mk p.1 pat (4/5)))).flatten

/-- `analyze_financial_query` (lightweight mode): sentiment, intent,
keywords and entities of the query; the `user_profile` argument is never
read. No step of the body raises, so the `except` fallback
(`_fallback_query_analysis`) is unreachable. -/
def analyze_financial_query (query : String) (_user_profile : UserProfile) : FinancialQuery :=
  let sentiment_result := analyze_sentiment query
  let ic := classify_intent query
  { original_query := query
    intent := ic.1
    entities := extract_entities query
    keywords := extract_keywords query
    sentiment := lowerStr sentiment_result.label
    confidence := sentiment_result.score
    category := ic.2 }

/-! #### Response generation -/

/-- One bucket of `base_responses`: a dict whose `recommendations`,
`resources` and `follow_ups` keys may be absent (`none`), read with
`.get(key, default)`. -/
structure ResponseData where
  content : String
  recommendations : Option (List String) := none
  resources : Option (List String) := none
  follow_ups : Option (List String) := none

/-- Python `v or default` for an optional string (`None` and `""` are both
falsy). -/
def pyOrStr (v : Option String) (default : String) : String :=
  match v with
  | some s => if s = "" then default else s
  | none => default

/-- The `'savings'` bucket of `_generate_student_response.base_responses`
(its content interpolates `user_profile.name or 'there'`). -/
def studentSavingsData (u : UserProfile) : ResponseData where
  content :=
    "\n                Hey " ++ pyOrStr u.name "there" ++ "! 🎓 Great question about saving money as a student!

                Here's my advice tailored for students:

                💡 **Start Small**: Even $25-50 per month makes a huge difference over time!
                🎯 **Emergency Fund First**: Try to build a small emergency fund of $500-1000
                📱 **Use Student Discounts**: Take advantage of student pricing everywhere
                💰 **Part-time Job**: Consider a campus job or paid internship

                **Quick Student Tips:**
                • Use the 50/30/20 rule: 50% needs, 30% wants, 20% savings
                • Try apps like Mint or YNAB (free for students!)
                • Look for high-yield savings accounts with no minimums
                • Avoid lifestyle inflation when you get financial aid refunds
                "
  recommendations := some
    [ "Open a high-yield savings account with no minimum balance",
      "Set up automatic transfers of $25-50 per month",
      "Track spending for one month to identify money leaks",
      "Apply for student discounts on subscriptions and services" ]
  resources := some
    [ "Student Budget Template",
      "Campus Financial Counseling Services",
      "Free Financial Literacy Apps" ]
  follow_ups := some
    [ "What's your biggest monthly expense besides tuition?",
      "Do you have any income from part-time work?",
      "Would you like help setting up your first budget?" ]

/-- The `'investment'` bucket of `_generate_student_response.base_responses`. -/
def studentInvestmentData : ResponseData where
  content :=
    "
                Awesome that you're thinking about investing as a student! 📈

                **Why Starting Early is Your Superpower:**
                🚀 Time is your biggest advantage - compound interest is magical!
                💰 Even $10-50/month can grow to thousands over time
                📚 Learning about investing now sets you up for life

                **Student-Friendly Investment Options:**
                • **Roth IRA**: Perfect for students - tax-free growth!
                • **Target-Date Funds**: Simple, diversified, hands-off
                • **Index Funds**: Low fees, broad market exposure
                • **Micro-investing Apps**: Start with spare change (Acorns, Stash)

                **Simple Strategy:**
                1. Build $500 emergency fund first
                2. Open a Roth IRA with Fidelity/Vanguard (no minimums!)
                3. Invest in a target-date fund matching your graduation + 40 years
                4. Invest any financial aid refunds or gift money
                "
  recommendations := some
    [ "Open a Roth IRA - perfect for students with low income",
      "Start with a target-date fund for simplicity",
      "Use micro-investing apps to begin with small amounts",
      "Take a free online investing course" ]
  resources := some
    [ "Student Investment Guide",
      "Roth IRA Comparison Chart",
      "Free Investment Courses" ]
  follow_ups := some
    [ "Do you have any earned income this year?",
      "What's your investment timeline?",
      "Are you interested in learning about index funds?" ]

/-- The `'budgeting'` bucket of `_generate_student_response.base_responses`
(no `resources` and no `follow_ups` keys). -/
def studentBudgetingData : ResponseData where
  content :=
    "
                Perfect time to learn budgeting as a student! 📊

                **Student Budget Basics:**
                🏫 **Fixed Costs**: Tuition, rent, meal plan, textbooks
                🎯 **Variable Costs**: Food, entertainment, transportation, personal items
                💰 **Income Sources**: Part-time job, financial aid, family support

                **Simple Student Budget Method:**
                1. List all monthly income sources
                2. List all fixed expenses (things you must pay)
                3. Set aside $50-100 for savings/emergency fund
                4. Divide remaining money: 70% needs, 30% wants

                **Money-Saving Student Hacks:**
                • Buy used textbooks or rent them
                • Use student discounts everywhere
                • Cook simple meals instead of eating out
                • Take advantage of free campus activities
                "
  recommendations := some
    [ "Use a budgeting app designed for students",
      "Track every expense for one week to see patterns",
      "Set up a separate savings account",
      "Look for student discounts on everything you buy" ]

/-- `response_data = base_responses.get(category,
base_responses.get('savings', base_responses['savings']))` of
`_generate_student_response`: lookup with the savings bucket as default. -/
def studentResponseData (category : String) (u : UserProfile) : ResponseData :=
  if category = "savings" then studentSavingsData u
  else if category = "investment" then studentInvestmentData
  else if category = "budgeting" then studentBudgetingData
  else studentSavingsData u

/-- `_generate_student_response`: pick the bucket for the query's category
and build the `PersonalizedResponse` (content stripped; missing dict keys
default to `[]`). -/
def generate_student_response (query : FinancialQuery) (u : UserProfile) : PersonalizedResponse :=
  let response_data := studentResponseData query.category u
  { content := pyStrip response_data.content
    tone := "friendly and educational"
    complexity_level := "simple"
    recommendations := response_data.recommendations.getD []
    additional_resources := response_data.resources.getD []
    follow_up_questions := response_data.follow_ups.getD [] }

/-- The `'investment'` bucket of
`_generate_professional_response.base_responses` (its content
interpolates `user_profile.risk_tolerance.value if
user_profile.risk_tolerance else 'moderate'`; no `follow_ups` key). -/
def professionalInvestmentData (u : UserProfile) : ResponseData where
  content :=
    "
                Excellent question about investment strategy! 💼

                Based on your profile as a working professional, here's a comprehensive approach:

                **Portfolio Allocation Strategy:**
                🎯 **Age-Based Rule**: Consider 100 - your age = stock percentage
                ⚖️ **Risk Tolerance**: Your " ++
    (match u.risk_tolerance with
     | some r => r.value
     | none => "moderate") ++
    " profile suggests balanced growth
                🌍 **Diversification**: Mix of domestic/international, large/small cap

                **Tax-Advantaged Account Priority:**
                1. **401(k) Match**: Contribute enough for full employer match (free money!)
                2. **Roth IRA**: $6,000/year if income allows
                3. **Additional 401(k)**: Up to $22,500/year limit
                4. **Taxable Account**: For additional investments

                **Advanced Strategies:**
                • **Tax-Loss Harvesting**: Offset gains with strategic losses
                • **Asset Location**: Hold tax-inefficient investments in tax-advantaged accounts
                • **Rebalancing**: Quarterly review and rebalance to target allocation
                "
  recommendations := some
    [ "Maximize 401(k) employer match immediately",
      "Open and fund Roth IRA if income eligible",
      "Consider low-cost index funds (VTSAX, FXNAX)",
      "Implement tax-loss harvesting strategy",
      "Review and rebalance portfolio quarterly" ]
  resources := some
    [ "Advanced Portfolio Management Tools",
      "Tax-Loss Harvesting Guide",
      "Professional Financial Planning Resources" ]

/-- The `'savings'` bucket of
`_generate_professional_response.base_responses` (content only). -/
def professionalSavingsData : ResponseData where
  content :=
    "
                Strategic savings approach for professionals: 💰

                **Savings Rate Targets:**
                🎯 **Emergency Fund**: 3-6 months expenses in high-yield savings
                📈 **Savings Rate**: Aim for 20% of gross income
                🏠 **Goal-Based Saving**: Separate accounts for different objectives

                **High-Yield Account Strategy:**
                • Online banks typically offer 4-5% APY
                • Consider CD ladders for portion of emergency fund
                • Money market accounts for easy access

                **Advanced Savings Techniques:**
                • **Automated Transfers**: Set up automatic savings on payday
                • **Pay Yourself First**: Save before discretionary spending
                • **Bonus Strategy**: Save 50% of bonuses, raises, tax refunds
                "

/-- `response_data = base_responses.get(category,
base_responses.get('investment', base_responses['investment']))` of
`_generate_professional_response`. -/
def professionalResponseData (category : String) (u : UserProfile) : ResponseData :=
  if category = "investment" then professionalInvestmentData u
  else if category = "savings" then professionalSavingsData
  else professionalInvestmentData u

/-- `_generate_professional_response`; `follow_up_questions` reads the
`follow_ups` key with a three-question default (neither bucket has the
key, so the default always applies). -/
def generate_professional_response (query : FinancialQuery) (u : UserProfile) : PersonalizedResponse :=
  let response_data := professionalResponseData query.category u
  { content := pyStrip response_data.content
    tone := "professional and detailed"
    complexity_level := "advanced"
    recommendations := response_data.recommendations.getD []
    additional_resources := response_data.resources.getD []
    follow_up_questions := response_data.follow_ups.getD
      [ "What's your current asset allocation?",
        "Are you maximizing all tax-advantaged accounts?",
        "Would you like specific fund recommendations?" ] }

/-- `_generate_general_response`: the fixed reply for a profile that is
neither student nor professional. -/
def generate_general_response (_query : FinancialQuery) (_u : UserProfile) : PersonalizedResponse where
  content := "Thanks for your question! I'd be happy to provide personalized advice once you complete your profile setup. This helps me tailor recommendations to your specific situation and goals."
  tone := "helpful"
  complexity_level := "medium"
  recommendations := ["Complete your user profile for personalized advice"]
  additional_resources := ["Financial Planning Basics"]
  follow_up_questions := ["Would you like to complete your profile setup?"]

/-- `_generate_fallback_response`: the fixed reply substituted when
response generation raises. -/
def generate_fallback_response (_query : FinancialQuery) : PersonalizedResponse where
  content := "I'm here to help with your financial questions! Could you please rephrase your question or be more specific about what you'd like to know?"
  tone := "helpful"
  complexity_level := "simple"
  recommendations := ["Try asking about savings, investments, budgeting, or debt management"]
  additional_resources := ["Financial FAQ"]
  follow_up_questions := ["What specific financial topic would you like help with?"]

/-- `generate_personalized_response`: dispatch on `user_profile.user_type`;
the `except` handler would substitute `_generate_fallback_response`, but
no branch of the body raises in this model, so the dispatch is total. -/
def generate_personalized_response (query : FinancialQuery) (u : UserProfile) : PersonalizedResponse :=
  match u.user_type with
  | some UserType.student => generate_student_response query u
  | some UserType.professional => generate_professional_response query u
  | none => generate_general_response query u

/-! #### Budget summaries (the emergency-coverage computation) -/

/-- `savings_months` of `_generate_student_budget_summary`:
`current_savings / monthly_expenses if monthly_expenses > 0 else 0`, with
`user_profile.monthly_expenses or 0` and `user_profile.current_savings
or 0` as inputs (`None` → `0`; `or` also maps `0` to `0`, with the same
result). -/
def student_savings_months (u : UserProfile) : Rat :=
  let monthly_expenses := u.monthly_expenses.getD 0
  let current_savings := u.current_savings.getD 0
  if 0 < monthly_expenses then current_savings / monthly_expenses else 0

/-- `emergency_months` of `_generate_professional_budget_summary`: the
same guarded division. -/
def professional_emergency_months (u : UserProfile) : Rat :=
  let monthly_expenses := u.monthly_expenses.getD 0
  let current_savings := u.current_savings.getD 0
  if 0 < monthly_expenses then current_savings / monthly_expenses else 0

/-! ### Specification-side definition for the classification claim -/

/-- The classifier as the specification words it: score every intent of
the table; when all counts are zero return
`('general_financial_advice', 'general')`; otherwise return the first
intent (in declaration order) whose count is greater than or equal to
every other count — the intent with the strictly highest count, ties
broken in favour of the earliest-declared — and as category the prefix
of the intent up to its first underscore. -/
def classify_intent_spec (query : String) : String × String :=
  let query_lower := lowerStr query
  let scores := financial_intents.map (fun p => (p.1, intentScore query_lower p.2))
  if scores.all (fun p => p.2 = 0) then ("general_financial_advice", "general")
  else pickResult (scores.find? (fun p => scores.all (fun q => q.2 ≤ p.2)))

/-! ### Helper lemmas -/

/-- The greatest second component of a scored list (0 on `[]`). -/
def maxSnd (l : List (String × Nat)) : Nat :=
  l.foldr (fun p m => max p.2 m) 0

theorem maxSnd_cons (a : String × Nat) (l : List (String × Nat)) :
    maxSnd (a :: l) = max a.2 (maxSnd l) := rfl

theorem all_le_eq_maxSnd_le (l : List (String × Nat)) (s : Nat) :
    (l.all fun q => q.2 ≤ s) = decide (maxSnd l ≤ s) := by
  induction l with
  | nil => simp [maxSnd]
  | cons p t ih =>
    rw [List.all_cons, ih, maxSnd_cons]
    by_cases h1 : p.2 ≤ s <;> by_cases h2 : maxSnd t ≤ s <;> simp [h1, h2, max_le_iff]

theorem mem_le_maxSnd {l : List (String × Nat)} {p : String × Nat} (h : p ∈ l) :
    p.2 ≤ maxSnd l := by
  induction l with
  | nil => cases h
  | cons a t ih =>
    rcases List.mem_cons.mp h with rfl | h2
    · exact le_max_left _ _
    · exact le_trans (ih h2) (le_max_right _ _)

theorem maxSnd_filter_pos (l : List (String × Nat)) :
    maxSnd (l.filter fun p => 0 < p.2) = maxSnd l := by
  induction l with
  | nil => rfl
  | cons p t ih =>
    by_cases h : 0 < p.2
    · rw [List.filter_cons_of_pos (by simpa using h), maxSnd_cons, maxSnd_cons, ih]
    · have hz : p.2 = 0 := Nat.eq_zero_of_not_pos h
      rw [List.filter_cons_of_neg (by simpa using h), maxSnd_cons, ih, hz]
      simp

theorem find?_filter_of_imp (l : List (String × Nat)) (p f : (String × Nat) → Bool)
    (h : ∀ x, p x = true → f x = true) :
    (l.filter f).find? p = l.find? p := by
  induction l with
  | nil => rfl
  | cons a t ih =>
    by_cases hf : f a = true
    · by_cases hp : p a = true
      · rw [List.filter_cons_of_pos hf, List.find?_cons_of_pos _ hp, List.find?_cons_of_pos _ hp]
      · rw [List.filter_cons_of_pos hf, List.find?_cons_of_neg _ (by simpa using hp),
          List.find?_cons_of_neg _ (by simpa using hp), ih]
    · have hp : ¬ p a = true := fun hpa => hf (h a hpa)
      rw [List.filter_cons_of_neg (by simpa using hf), List.find?_cons_of_neg _ (by simpa using hp), ih]

theorem pyStrip_ne_empty {s : String} {c : Char} (hc : c ∈ s.toList)
    (hw : isPyWS c = false) : pyStrip s ≠ "" := by
  intro h
  have hl : (((s.toList.dropWhile isPyWS).reverse).dropWhile isPyWS).reverse = [] :=
    congrArg String.data h
  rw [List.reverse_eq_nil_iff, List.dropWhile_eq_nil_iff] at hl
  rw [← List.takeWhile_append_dropWhile (p := isPyWS) (l := s.toList)] at hc
  rcases List.mem_append.mp hc with h1 | h2
  · have := List.mem_takeWhile_imp h1
    simp [hw] at this
  · have := hl c (List.mem_reverse.mpr h2)
    simp [hw] at this

theorem mem_toList_append_left {c : Char} {s : String} (t : String) (h : c ∈ s.toList) :
    c ∈ (s ++ t).toList := by
  have : (s ++ t).toList = s.toList ++ t.toList := String.data_append s t
  rw [this]
  exact List.mem_append_left _ h

/-! ### The claims -/

/-- C1. Intent classification: for every query text, the classifier
lower-cases the text, counts case-insensitive unanchored substring
matches of each intent's lexicon keywords, and returns the intent with
the strictly highest match count, breaking ties in favour of the
earliest-declared intent in the table; if all counts are zero it returns
intent `general_financial_advice` with category `general`, and otherwise
the category is the substring of the intent up to its first `_`
separator. (`classify_intent_spec` transcribes exactly that;
`classify_intent` is the code, which filters the zero scores out before
taking the Python `max`.) -/
theorem classify_intent_meets_spec (query : String) :
    classify_intent query = classify_intent_spec query := by
  simp only [classify_intent, classify_intent_spec, pyMaxBySnd]
  set l := financial_intents.map
    (fun p => (p.1, intentScore (lowerStr query) p.2)) with hl
  by_cases h0 : (l.all fun p => p.2 = 0) = true
  · have hf : (l.filter fun p => 0 < p.2) = [] := by
      rw [List.filter_eq_nil_iff]
      intro a ha
      have := List.all_eq_true.mp h0 a ha
      simp at this ⊢
      omega
    rw [hf, if_pos h0]
    rfl
  · rw [if_neg h0]
    have hM : 1 ≤ maxSnd l := by
      have hex : ∃ p ∈ l, ¬ p.2 = 0 := by
        by_contra hc
        push_neg at hc
        exact h0 (List.all_eq_true.mpr fun p hp => by simp [hc p hp])
      obtain ⟨p, hp, hpz⟩ := hex
      have := mem_le_maxSnd hp
      omega
    congr 1
    rw [show (fun p : String × Nat =>
          (l.filter fun p => 0 < p.2).all fun q => q.2 ≤ p.2) =
        (fun p : String × Nat => decide (maxSnd l ≤ p.2)) from
      funext fun p => by rw [all_le_eq_maxSnd_le, maxSnd_filter_pos]]
    rw [show (fun p : String × Nat => l.all fun q => q.2 ≤ p.2) =
        (fun p : String × Nat => decide (maxSnd l ≤ p.2)) from
      funext fun p => all_le_eq_maxSnd_le l p.2]
    exact find?_filter_of_imp l _ _ (fun x hx => by
      simp at hx ⊢
      omega)

/-- C2 (amended). Keyword extraction returns at most 5 items, in
first-occurrence order (a sublist of the token stream of the lowered
text), drawn only from the fixed financial-terms vocabulary; when the
input contains zero financial terms the result is the empty list — the
first-3-raw-tokens fallback sits in an `except` branch that no pure
string input reaches. -/
theorem extract_keywords_shape (t : String) :
    (extract_keywords t).length ≤ 5 ∧
    (∀ w ∈ extract_keywords t, w ∈ financial_terms) ∧
    (extract_keywords t).Sublist (findWords (lowerStr t)) ∧
    ((∀ w ∈ findWords (lowerStr t), w ∉ financial_terms) → extract_keywords t = []) := by
  refine ⟨?_, ?_, ?_, ?_⟩
  · simp only [extract_keywords, List.length_take]
    exact Nat.min_le_left 5 _
  · intro w hw
    simp only [extract_keywords] at hw
    have := List.mem_filter.mp (List.mem_of_mem_take hw)
    simpa using this.2
  · exact ((List.take_sublist _ _).trans (List.filter_sublist _))
  · intro h
    simp only [extract_keywords]
    rw [List.filter_eq_nil_iff.mpr (fun w hw => by simpa using h w hw)]
    rfl

/-- C2, witness: the amended statement applied at concrete inputs — the
bound holds, and an input with zero financial terms yields `[]`. -/
theorem extract_keywords_shape_witness :
    (extract_keywords "just plain words").length ≤ 5 ∧
    extract_keywords "just plain words" = [] :=
  ⟨(extract_keywords_shape "just plain words").1,
   (extract_keywords_shape "just plain words").2.2.2 (by decide)⟩

/-- C2, counterexample to the claim as stated: `"hello world"` contains
zero financial terms, yet `_extract_keywords` returns `[]`, not the first
3 raw tokens `["hello", "world"]`. -/
theorem extract_keywords_counterexample :
    extract_keywords "hello world" = [] ∧
    (pySplitWS "hello world").take 3 = ["hello", "world"] ∧
    (["hello", "world"] : List String) ≠ [] := by
  decide

/-- C3. Fallback sentiment: strictly more positive-lexicon hits than
negative ⇒ `('positive', 0.7)`; strictly more negative ⇒
`('negative', 0.7)`; equal counts (including 0/0) ⇒ `('neutral', 0.6)`. -/
theorem fallback_sentiment_cases (t : String) :
    (negativeCount t < positiveCount t →
      fallback_sentiment_analysis t = ⟨"positive", 7/10⟩) ∧
    (positiveCount t < negativeCount t →
      fallback_sentiment_analysis t = ⟨"negative", 7/10⟩) ∧
    (positiveCount t = negativeCount t →
      fallback_sentiment_analysis t = ⟨"neutral", 3/5⟩) := by
  simp only [fallback_sentiment_analysis]
  refine ⟨fun h => ?_, fun h => ?_, fun h => ?_⟩ <;>
    split_ifs <;> first | rfl | omega

/-- C3, witness: the three cases at concrete inputs. -/
theorem fallback_sentiment_cases_witness :
    fallback_sentiment_analysis "great" = ⟨"positive", 7/10⟩ ∧
    fallback_sentiment_analysis "terrible" = ⟨"negative", 7/10⟩ ∧
    fallback_sentiment_analysis "" = ⟨"neutral", 3/5⟩ :=
  ⟨(fallback_sentiment_cases "great").1 (by decide),
   (fallback_sentiment_cases "terrible").2.1 (by decide),
   (fallback_sentiment_cases "").2.2 (by decide)⟩

/-- C5. Empty-text analysis: `analyze_financial_query` on the empty string
(for any profile) returns intent `general_financial_advice`, category
`general`, sentiment `neutral`, the fixed low confidence 0.6, no
entities and no keywords — and, being a total function of this model,
raises nothing. -/
theorem analyze_empty_query (u : UserProfile) :
    analyze_financial_query "" u =
      { original_query := ""
        intent := "general_financial_advice"
        entities := []
        keywords := []
        sentiment := "neutral"
        confidence := 3/5
        category := "general" } := rfl

/-- C6. End-to-end Student scenario: for a student persona and the query
`How should I save money?` (which matches both the savings and the
budgeting lexicons, one keyword each), the pipeline yields intent
`savings_advice`, category `savings` (the tie breaks to the
earlier-declared savings intent), a response with tone
`friendly and educational`, and a non-empty recommendations list. -/
theorem student_savings_scenario :
    (analyze_financial_query "How should I save money?"
        { user_type := some UserType.student }).intent = "savings_advice" ∧
    (analyze_financial_query "How should I save money?"
        { user_type := some UserType.student }).category = "savings" ∧
    (generate_personalized_response
        (analyze_financial_query "How should I save money?"
          { user_type := some UserType.student })
        { user_type := some UserType.student }).tone = "friendly and educational" ∧
    (generate_personalized_response
        (analyze_financial_query "How should I save money?"
          { user_type := some UserType.student })
        { user_type := some UserType.student }).recommendations ≠ [] := by
  refine ⟨by decide, by decide, rfl, by decide⟩

/-- C10. Persona-independence of analysis: `analyze_financial_query` never
reads its `user_profile` argument, so any two profiles give identical
results for the same query text (and repeated analysis is
deterministic). -/
theorem analysis_persona_independent (q : String) (u1 u2 : UserProfile) :
    analyze_financial_query q u1 = analyze_financial_query q u2 := rfl

/-- C4. `generate_personalized_response` never throws: for every query
(garbage intent/category included) and every profile (empty included) it
returns a response with non-empty content; a persona whose `user_type`
is neither Student nor Professional gets the generic response whose
single recommendation asks to complete the profile; and the fixed
fallback substituted on internal failure asks the user to rephrase. (In
this model the body is total, so the `except` handler is unreachable;
the fallback is characterised directly.) -/
theorem generate_personalized_response_total (q : FinancialQuery) (u : UserProfile) :
    (generate_personalized_response q u).content ≠ "" ∧
    (u.user_type ≠ some UserType.student ∧ u.user_type ≠ some UserType.professional →
      generate_personalized_response q u = generate_general_response q u ∧
      (generate_general_response q u).recommendations =
        ["Complete your user profile for personalized advice"]) ∧
    (generate_fallback_response q).content =
      "I'm here to help with your financial questions! Could you please rephrase your question or be more specific about what you'd like to know?" := by
  refine ⟨?_, ?_, rfl⟩
  · cases hu : u.user_type with
    | none =>
      have hgen : generate_personalized_response q u = generate_general_response q u := by
        simp only [generate_personalized_response, hu]
      rw [hgen]
      show ¬ ("Thanks for your question! I'd be happy to provide personalized advice once you complete your profile setup. This helps me tailor recommendations to your specific situation and goals." = "")
      decide
    | some ut =>
      cases ut with
      | student =>
        simp only [generate_personalized_response, hu, generate_student_response,
          studentResponseData]
        split_ifs
        · exact pyStrip_ne_empty (c := 'H')
            (mem_toList_append_left _ (mem_toList_append_left _ (by decide))) (by decide)
        · exact pyStrip_ne_empty (c := 'A') (by decide) (by decide)
        · exact pyStrip_ne_empty (c := 'P') (by decide) (by decide)
        · exact pyStrip_ne_empty (c := 'H')
            (mem_toList_append_left _ (mem_toList_append_left _ (by decide))) (by decide)
      | professional =>
        simp only [generate_personalized_response, hu, generate_professional_response,
          professionalResponseData]
        split_ifs
        · exact pyStrip_ne_empty (c := 'E')
            (mem_toList_append_left _ (mem_toList_append_left _ (by decide))) (by decide)
        · exact pyStrip_ne_empty (c := 'S') (by decide) (by decide)
        · exact pyStrip_ne_empty (c := 'E')
            (mem_toList_append_left _ (mem_toList_append_left _ (by decide))) (by decide)
  · intro h
    cases hu : u.user_type with
    | none =>
      have hgen : generate_personalized_response q u = generate_general_response q u := by
        simp only [generate_personalized_response, hu]
      exact ⟨hgen, rfl⟩
    | some ut =>
      cases ut with
      | student => exact absurd hu h.1
      | professional => exact absurd hu h.2

/-- C4, witness: an empty profile (no `user_type`) gets the generic
response and its content is non-empty. -/
theorem generate_personalized_response_total_witness :
    (generate_personalized_response
        { original_query := "x", intent := "junk", entities := [], keywords := [],
          sentiment := "junk", confidence := 0, category := "junk" } {}).content ≠ "" ∧
    generate_personalized_response
        { original_query := "x", intent := "junk", entities := [], keywords := [],
          sentiment := "junk", confidence := 0, category := "junk" } {} =
      generate_general_response
        { original_query := "x", intent := "junk", entities := [], keywords := [],
          sentiment := "junk", confidence := 0, category := "junk" } {} :=
  ⟨(generate_personalized_response_total
      { original_query := "x", intent := "junk", entities := [], keywords := [],
        sentiment := "junk", confidence := 0, category := "junk" } {}).1,
   ((generate_personalized_response_total
      { original_query := "x", intent := "junk", entities := [], keywords := [],
        sentiment := "junk", confidence := 0, category := "junk" } {}).2.1
      (by exact ⟨by decide, by decide⟩)).1⟩

/-- C7 (amended). Sentiment symmetry: for an input whose lexicon hits are
positive words only, replacing the positive words by negative-lexicon
words flips the label from positive to negative at the same fixed
confidence 0.7 — provided the replaced text has no residual
positive-lexicon substring hit (substring matching can manufacture one,
see the counterexample) and at least one negative hit. -/
theorem sentiment_flip_amended (t : String) (subs : List (String × String))
    (_hsubs : ∀ p ∈ subs, p.1 ∈ positive_words ∧ p.2 ∈ negative_words)
    (hpos : 0 < positiveCount t) (hneg : negativeCount t = 0)
    (hpos2 : positiveCount (applySubs subs t) = 0)
    (hneg2 : 0 < negativeCount (applySubs subs t)) :
    fallback_sentiment_analysis t = ⟨"positive", 7/10⟩ ∧
    fallback_sentiment_analysis (applySubs subs t) = ⟨"negative", 7/10⟩ := by
  constructor
  · simp only [fallback_sentiment_analysis]
    rw [if_pos (by omega)]
  · simp only [fallback_sentiment_analysis]
    rw [if_neg (by omega), if_pos (by omega)]

/-- C7, witness: `"good day"` with the substitution `good → bad`. -/
theorem sentiment_flip_amended_witness :
    fallback_sentiment_analysis "good day" = ⟨"positive", 7/10⟩ ∧
    fallback_sentiment_analysis (applySubs [("good", "bad")] "good day") =
      ⟨"negative", 7/10⟩ :=
  sentiment_flip_amended "good day" [("good", "bad")] (by decide) (by decide)
    (by decide) (by decide) (by decide)

/-- C7, counterexample to the claim as stated: `"helwantp"` has exactly
one lexicon hit, the positive word `want`, and no negative hit, so the
fallback is positive 0.7; replacing `want` by the negative word
`problem` gives `"helproblemp"`, which contains `help` as a substring,
so the counts tie and the label becomes neutral 0.6 — not negative 0.7. -/
theorem sentiment_flip_counterexample :
    positive_words.filter (fun w => strContains (lowerStr "helwantp") w) = ["want"] ∧
    negative_words.filter (fun w => strContains (lowerStr "helwantp") w) = [] ∧
    ("want" ∈ positive_words ∧ "problem" ∈ negative_words) ∧
    applySubs [("want", "problem")] "helwantp" = "helproblemp" ∧
    fallback_sentiment_analysis "helwantp" = ⟨"positive", 7/10⟩ ∧
    fallback_sentiment_analysis "helproblemp" = ⟨"neutral", 3/5⟩ :=
  ⟨by decide, by decide, by decide, by decide, rfl, rfl⟩

/-- C8. Budget coverage: emergency-fund coverage in months equals
`current_savings / monthly_expenses` whenever `monthly_expenses > 0`,
and equals 0 with no division performed when `monthly_expenses` is 0,
in both the student and the professional budget summaries. -/
theorem budget_coverage (u : UserProfile) :
    (0 < u.monthly_expenses.getD 0 →
      student_savings_months u = u.current_savings.getD 0 / u.monthly_expenses.getD 0 ∧
      professional_emergency_months u =
        u.current_savings.getD 0 / u.monthly_expenses.getD 0) ∧
    (u.monthly_expenses.getD 0 = 0 →
      student_savings_months u = 0 ∧ professional_emergency_months u = 0) := by
  constructor
  · intro h
    simp only [student_savings_months, professional_emergency_months]
    rw [if_pos h]
    exact ⟨rfl, rfl⟩
  · intro h
    simp only [student_savings_months, professional_emergency_months]
    rw [if_neg (by rw [h]; exact lt_irrefl 0)]
    exact ⟨rfl, rfl⟩

/-- C8, witness: savings 1200 with expenses 800 give exactly 1.5 months in
both summaries; expenses 0 give coverage 0. -/
theorem budget_coverage_witness :
    student_savings_months
        { monthly_expenses := some 800, current_savings := some 1200 } = 3/2 ∧
    professional_emergency_months
        { monthly_expenses := some 800, current_savings := some 1200 } = 3/2 ∧
    student_savings_months
        { monthly_expenses := some 0, current_savings := some 1200 } = 0 := by
  have h := (budget_coverage
    { monthly_expenses := some 800, current_savings := some 1200 }).1
    (by norm_num [Option.getD_some])
  have h0 := (budget_coverage
    { monthly_expenses := some 0, current_savings := some 1200 }).2
    (by norm_num [Option.getD_some])
  refine ⟨?_, ?_, h0.1⟩
  · rw [h.1]
    norm_num [Option.getD_some]
  · rw [h.2]
    norm_num [Option.getD_some]

/-- C9. Persona enum setters: each setter normalizes its raw string input
(case-fold, or `'_' → '-'`) and looks it up in the closed enumeration; a
successful set stores exactly the member whose `.value` equals the
normalized input, and when the normalized value matches no member the
setter fails with an error — it never silently assigns a default. -/
theorem setters_validate (v : String) :
    (match set_user_type v with
      | .ok t => lowerStr v = t.value
      | .error _ => ∀ t : UserType, lowerStr v ≠ t.value) ∧
    (match set_age_range v with
      | .ok a => strReplace "_" "-" v = a.value
      | .error _ => ∀ a : AgeRange, strReplace "_" "-" v ≠ a.value) ∧
    (match set_income_level v with
      | .ok i => strReplace "_" "-" v = i.value
      | .error _ => ∀ i : IncomeLevel, strReplace "_" "-" v ≠ i.value) ∧
    (match set_risk_tolerance v with
      | .ok r => lowerStr v = r.value
      | .error _ => ∀ r : RiskTolerance, lowerStr v ≠ r.value) ∧
    (match set_communication_preference v with
      | .ok c => lowerStr v = c.value
      | .error _ => ∀ c : CommunicationStyle, lowerStr v ≠ c.value) := by
  refine ⟨?_, ?_, ?_, ?_, ?_⟩
  · simp only [set_user_type]
    split_ifs with h1 h2
    · exact h1
    · exact h2
    · intro t
      cases t <;> simp only [UserType.value] <;> assumption
  · simp only [set_age_range]
    split_ifs with h1 h2 h3 h4
    · exact h1
    · exact h2
    · exact h3
    · exact h4
    · intro a
      cases a <;> simp only [AgeRange.value] <;> assumption
  · simp only [set_income_level]
    split_ifs with h1 h2 h3 h4 h5
    · exact h1
    · exact h2
    · exact h3
    · exact h4
    · exact h5
    · intro i
      cases i <;> simp only [IncomeLevel.value] <;> assumption
  · simp only [set_risk_tolerance]
    split_ifs with h1 h2 h3
    · exact h1
    · exact h2
    · exact h3
    · intro r
      cases r <;> simp only [RiskTolerance.value] <;> assumption
  · simp only [set_communication_preference]
    split_ifs with h1 h2
    · exact h1
    · exact h2
    · intro c
      cases c <;> simp only [CommunicationStyle.value] <;> assumption

end FinanceAssistant
